import Mathlib

/-
Verification of the toolchain-resolution, staleness-detection and project
management core of the `ferramentas-cli` repository (Rust), via a shallow
embedding in Lean 4.

Paths are modelled as lists of segments below the filesystem root
(`Caminho`).  All ambient state the program reads (environment variables,
the filesystem, the current executable, the search-path lookup performed
by the `which` crate, process invocations) is gathered in one explicit
record `Sistema`, so every source function becomes a pure function of a
`Sistema` and its ordinary arguments.  The Unix build of the tool is
modelled: `cfg!(windows)` is false, so `nome_executavel` is the identity.
String trimming models `str::trim` on ASCII whitespace.
-/

/-- A filesystem path: the list of segments below the root.  `[]` is the
root itself. -/
abbrev Caminho := List String

/-- `Path::parent`: drop the last segment; the root has no parent. -/
def parent (p : Caminho) : Option Caminho :=
  match p with
  | [] => none
  | _ => some p.dropLast

/-- The ambient state read by the program, made explicit.  `env` is the
process environment, `isFile`/`isDir`/`existe` are the filesystem probes
used by the source (`is_file`, `is_dir`, `exists`), `mtime` is
`metadata().modified().ok()`, `currentExe` is `std::env::current_exe`,
`whichResult` is the PATH lookup of the `which` crate, `parsePath` is
`PathBuf::from` on a string, `absolutize` is `path_absolutize`,
`walk` is the `WalkDir` enumeration (in discovery order, errors already
skipped), `executar caminho flag` is the captured (stdout, stderr) of
invoking `caminho` with one argument (`none` = launch failure), and
`statusProcesso` is the success bit of spawning a process on a list of
path arguments (`none` = launch failure). -/
structure Sistema where
  env : String → Option String
  isFile : Caminho → Bool
  isDir : Caminho → Bool
  existe : Caminho → Bool
  mtime : Caminho → Option Nat
  currentExe : Option Caminho
  whichResult : String → Option Caminho
  parsePath : String → Caminho
  absolutize : Caminho → Caminho
  walk : Caminho → List Caminho
  executar : Caminho → String → Option (String × String)
  statusProcesso : Caminho → List Caminho → Option Bool

/-- `DiagnosticoFerramenta` of src/src/toolchain.rs (lines 9-15). -/
structure DiagnosticoFerramenta where
  nome : String
  caminho : Caminho
  origem : String
  encontrado : Bool
deriving DecidableEq, Repr

/-- `str::trim` of Rust, on the ASCII whitespace model of `Char.isWhitespace`. -/
def aparar (s : String) : String :=
  String.mk (((s.toList.dropWhile Char.isWhitespace).reverse.dropWhile
    Char.isWhitespace).reverse)

/-- `ler_env_path` (toolchain.rs lines 307-314): read an environment
variable, trim it, treat an empty result as unset, else parse it as a path. -/
def ler_env_path (sys : Sistema) (nome : String) : Option Caminho :=
  match sys.env nome with
  | none => none
  | some valor =>
    let valor2 := aparar valor
    if valor2 = "" then none else some (sys.parsePath valor2)

/-- `nome_executavel` (toolchain.rs lines 369-375); the Unix build is
modelled, where no `.exe` suffix is appended. -/
def nome_executavel (nome : String) : String := nome

/-- `ok` (toolchain.rs lines 289-296). -/
def ok (nome : String) (caminho : Caminho) (origem : String) : DiagnosticoFerramenta :=
  { nome := nome, caminho := caminho, origem := origem, encontrado := true }

/-- `falha` (toolchain.rs lines 298-305). -/
def falha (nome : String) (caminho : Caminho) (origem : String) : DiagnosticoFerramenta :=
  { nome := nome, caminho := caminho, origem := origem, encontrado := false }

/-- `Option::get_or_insert_with` on the `primeira_falha` accumulator:
keep the first recorded failure. -/
def registrar (primeira : Option DiagnosticoFerramenta) (d : DiagnosticoFerramenta) :
    Option DiagnosticoFerramenta :=
  match primeira with
  | some x => some x
  | none => some d

/-- One candidate-list tier of `localizar_executavel` (toolchain.rs lines
127-138 and 159-165): return the first candidate that is a regular file as
a success, otherwise thread the first-failure accumulator, which records
the first candidate tried. -/
def busca_tier (sys : Sistema) (nome_base origem_ok origem_falha : String) :
    List Caminho → Option DiagnosticoFerramenta →
      Option DiagnosticoFerramenta × Option DiagnosticoFerramenta
  | [], primeira => (none, primeira)
  | p :: ps, primeira =>
    if sys.isFile p then (some (ok nome_base p origem_ok), primeira)
    else busca_tier sys nome_base origem_ok origem_falha ps
      (registrar primeira (falha nome_base p origem_falha))

/-- `caminhos_tools_instalacao` (toolchain.rs lines 316-327): the one or
two `tools/<nome>` directories next to the running executable. -/
def caminhos_tools_instalacao (sys : Sistema) (nome : String) : List Caminho :=
  match sys.currentExe with
  | none => []
  | some exe =>
    match parent exe with
    | none => []
    | some base =>
      match parent base with
      | none => [base ++ ["tools", nome]]
      | some pai => [base ++ ["tools", nome], pai ++ ["tools", nome]]

/-- `caminho_pordosol_home_tools` (toolchain.rs lines 329-332). -/
def caminho_pordosol_home_tools (sys : Sistema) (nome : String) : Option Caminho :=
  match ler_env_path sys "PORDOSOL_HOME" with
  | none => none
  | some home => some (home ++ ["tools", nome])

/-- `candidatos_lib_local` (toolchain.rs lines 334-346): walk upward from
the project root through up to 6 levels, proposing `<nivel>/lib/<nome>`. -/
def candidatos_lib_local : Nat → Caminho → String → List Caminho
  | 0, _, _ => []
  | Nat.succ k, atual, nome_exec =>
    (atual ++ ["lib", nome_exec]) ::
      (match parent atual with
       | some pai => candidatos_lib_local k pai nome_exec
       | none => [])

/-- `localizar_executavel` (toolchain.rs lines 114-174): the five-tier
search.  Tier 1 is the named override environment variable, tier 2 the
installation-relative `tools` directories, tier 3 `PORDOSOL_HOME/tools`,
tier 4 the PATH lookup, tier 5 the legacy `lib` fallback; the first
recorded failure is returned when no tier succeeds, with a final
`nao resolvido` descriptor when nothing was even recorded. -/
def localizar_executavel (sys : Sistema) (nome_base variavel_env : String)
    (raiz : Caminho) : DiagnosticoFerramenta :=
  let nome_exec := nome_executavel nome_base
  let passo1 : Option DiagnosticoFerramenta × Option DiagnosticoFerramenta :=
    match ler_env_path sys variavel_env with
    | some path =>
      if sys.isFile path then
        (some (ok nome_base path ("env:" ++ variavel_env)), none)
      else
        (none, some (falha nome_base path ("env:" ++ variavel_env ++ " (invalido)")))
    | none => (none, none)
  match passo1 with
  | (some d, _) => d
  | (none, primeira1) =>
    match busca_tier sys nome_base "instalacao-cli/tools" "instalacao-cli/tools (ausente)"
        (caminhos_tools_instalacao sys nome_exec) primeira1 with
    | (some d, _) => d
    | (none, primeira2) =>
      let passo3 : Option DiagnosticoFerramenta × Option DiagnosticoFerramenta :=
        match caminho_pordosol_home_tools sys nome_exec with
        | some path =>
          if sys.isFile path then
            (some (ok nome_base path "env:PORDOSOL_HOME/tools"), primeira2)
          else
            (none, registrar primeira2
              (falha nome_base path "env:PORDOSOL_HOME/tools (ausente)"))
        | none => (none, primeira2)
      match passo3 with
      | (some d, _) => d
      | (none, primeira3) =>
        match sys.whichResult nome_exec with
        | some path => ok nome_base path "PATH"
        | none =>
          let primeira4 := registrar primeira3
            (falha nome_base (sys.parsePath nome_exec) "PATH")
          match busca_tier sys nome_base "fallback:./lib" "fallback:./lib (ausente)"
              (candidatos_lib_local 6 raiz nome_exec) primeira4 with
          | (some d, _) => d
          | (none, primeira5) =>
            match primeira5 with
            | some d => d
            | none => falha nome_base (sys.parsePath nome_exec) "nao resolvido"

/-- A candidate-list tier in which every candidate fails leaves an already
recorded first failure untouched and produces no success. -/
theorem busca_tier_todos_falham (sys : Sistema) (nome_base a b : String)
    (l : List Caminho) (d : DiagnosticoFerramenta)
    (h : ∀ p ∈ l, sys.isFile p = false) :
    busca_tier sys nome_base a b l (some d) = (none, some d) := by
  induction l with
  | nil => rfl
  | cons p ps ih =>
    have hp : sys.isFile p = false := h p (List.mem_cons_self p ps)
    simp only [busca_tier, hp, Bool.false_eq_true, if_false, registrar]
    exact ih (fun q hq => h q (List.mem_cons_of_mem p hq))

/-- Claim C1: if the named override environment variable holds a path (after
trimming, a nonempty value) and that path is a regular file, then
`localizar_executavel` returns exactly that path, marked found, with the
environment-variable origin label, for every state of every other tier. -/
theorem C1_env_override (sys : Sistema) (nome variavel : String) (raiz : Caminho)
    (path : Caminho) (h1 : ler_env_path sys variavel = some path)
    (h2 : sys.isFile path = true) :
    localizar_executavel sys nome variavel raiz =
      ok nome path ("env:" ++ variavel) := by
  simp [localizar_executavel, h1, h2]

def sistemaVazio : Sistema where
  env := fun _ => none
  isFile := fun _ => false
  isDir := fun _ => false
  existe := fun _ => false
  mtime := fun _ => none
  currentExe := none
  whichResult := fun _ => none
  parsePath := fun s => [s]
  absolutize := fun p => p
  walk := fun _ => []
  executar := fun _ _ => none
  statusProcesso := fun _ _ => none

def sistemaC1 : Sistema :=
  { sistemaVazio with
    env := fun n => if n = "PORDOSOL_COMPILADOR_PATH" then some "/opt/comp" else none,
    isFile := fun p => p == ["/opt/comp"] }

/-- Witness for C1 at a concrete environment. -/
theorem C1_env_override_witness :
    localizar_executavel sistemaC1 "compilador" "PORDOSOL_COMPILADOR_PATH" [] =
      ok "compilador" ["/opt/comp"] "env:PORDOSOL_COMPILADOR_PATH" :=
  C1_env_override sistemaC1 "compilador" "PORDOSOL_COMPILADOR_PATH" [] ["/opt/comp"]
    (by decide) (by decide)

def sistemaC2 : Sistema :=
  { sistemaVazio with
    env := fun n => if n = "PORDOSOL_COMPILADOR_PATH" then some "/caminho/ruim" else none }

/-- Counterexample to claim C2 as stated: an environment in which none of the
five tiers locates the tool, yet the returned not-found descriptor carries the
origin of the PATH tier, not of the environment-variable tier, because the
override variable is unset and so the environment-variable tier records no
candidate. -/
theorem C2_contraexemplo :
    localizar_executavel sistemaVazio "compilador" "PORDOSOL_COMPILADOR_PATH" [] =
      falha "compilador" ["compilador"] "PATH" ∧
    "PATH" ≠ "env:PORDOSOL_COMPILADOR_PATH" ∧
    "PATH" ≠ "env:PORDOSOL_COMPILADOR_PATH (invalido)" := by
  refine ⟨by rfl, by decide, by decide⟩

/-- Claim C2 as amended: when the override environment variable is set (to a
value that trims to a nonempty path) but does not name a regular file, and
every other tier also fails, `localizar_executavel` returns the failure
descriptor of the environment-variable tier — the first tier that recorded a
candidate — rather than that of the last tier tried. -/
theorem C2_primeira_falha (sys : Sistema) (nome variavel : String) (raiz : Caminho)
    (path : Caminho)
    (h1 : ler_env_path sys variavel = some path)
    (h2 : sys.isFile path = false)
    (h3 : ∀ p ∈ caminhos_tools_instalacao sys (nome_executavel nome),
      sys.isFile p = false)
    (h4 : ∀ p, caminho_pordosol_home_tools sys (nome_executavel nome) = some p →
      sys.isFile p = false)
    (h5 : sys.whichResult (nome_executavel nome) = none)
    (h6 : ∀ p ∈ candidatos_lib_local 6 raiz (nome_executavel nome),
      sys.isFile p = false) :
    localizar_executavel sys nome variavel raiz =
      falha nome path ("env:" ++ variavel ++ " (invalido)") := by
  simp only [localizar_executavel, h1, h2, Bool.false_eq_true, if_false]
  rw [busca_tier_todos_falham sys nome _ _ _ _ h3]
  rcases hhome : caminho_pordosol_home_tools sys (nome_executavel nome) with _ | p3
  · simp only [hhome, h5, registrar]
    rw [busca_tier_todos_falham sys nome _ _ _ _ h6]
  · have hp3 : sys.isFile p3 = false := h4 p3 hhome
    simp only [hhome, hp3, Bool.false_eq_true, if_false, registrar, h5]
    rw [busca_tier_todos_falham sys nome _ _ _ _ h6]

def sistemaC2b : Sistema :=
  { sistemaVazio with
    env := fun n => if n = "PORDOSOL_COMPILADOR_PATH" then some "/caminho/ruim" else none }

/-- Witness for the amended C2 at a concrete environment: the variable is set
to a path that is not a file, all the other tiers fail, and the reported
origin is the environment-variable tier's. -/
theorem C2_primeira_falha_witness :
    localizar_executavel sistemaC2b "compilador" "PORDOSOL_COMPILADOR_PATH" [] =
      falha "compilador" ["/caminho/ruim"] "env:PORDOSOL_COMPILADOR_PATH (invalido)" :=
  C2_primeira_falha sistemaC2b "compilador" "PORDOSOL_COMPILADOR_PATH" []
    ["/caminho/ruim"] (by decide) (by decide)
    (fun p hp => absurd hp (List.not_mem_nil p))
    (fun p hp => Option.noConfusion hp)
    (by decide)
    (fun p hp => rfl)

/-- The same environment with one variable removed, used to state that a
blank variable behaves exactly as an absent one. -/
def semVar (sys : Sistema) (variavel : String) : Sistema :=
  { sys with env := fun nome => if nome = variavel then none else sys.env nome }

theorem semVar_isFile (sys : Sistema) (v : String) :
    (semVar sys v).isFile = sys.isFile := rfl

theorem semVar_currentExe (sys : Sistema) (v : String) :
    (semVar sys v).currentExe = sys.currentExe := rfl

theorem semVar_whichResult (sys : Sistema) (v : String) :
    (semVar sys v).whichResult = sys.whichResult := rfl

theorem semVar_parsePath (sys : Sistema) (v : String) :
    (semVar sys v).parsePath = sys.parsePath := rfl

theorem caminhos_tools_semVar (sys : Sistema) (v n : String) :
    caminhos_tools_instalacao (semVar sys v) n = caminhos_tools_instalacao sys n := rfl

theorem busca_tier_semVar (sys : Sistema) (v nb a b : String) (l : List Caminho)
    (pf : Option DiagnosticoFerramenta) :
    busca_tier (semVar sys v) nb a b l pf = busca_tier sys nb a b l pf := by
  induction l generalizing pf with
  | nil => rfl
  | cons p ps ih =>
    simp only [busca_tier, semVar_isFile]
    split
    · rfl
    · exact ih _

/-- Claim C9: an override environment variable whose value trims to the empty
string is treated exactly as if it were unset: resolution records no failure
for the tier and proceeds identically to the environment without it. -/
theorem C9_variavel_em_branco (sys : Sistema) (nome variavel : String)
    (raiz : Caminho) (valor : String)
    (h1 : sys.env variavel = some valor) (h2 : aparar valor = "") :
    localizar_executavel sys nome variavel raiz =
      localizar_executavel (semVar sys variavel) nome variavel raiz := by
  have hle : ∀ x, ler_env_path (semVar sys variavel) x = ler_env_path sys x := by
    intro x
    by_cases hx : x = variavel
    · subst hx
      simp [ler_env_path, semVar, h1, h2]
    · simp [ler_env_path, semVar, hx]
  have h3 : ler_env_path sys variavel = none := by
    simp [ler_env_path, h1, h2]
  have hhome : caminho_pordosol_home_tools (semVar sys variavel) (nome_executavel nome) =
      caminho_pordosol_home_tools sys (nome_executavel nome) := by
    simp only [caminho_pordosol_home_tools, hle]
  simp only [localizar_executavel, h3, hle, hhome, caminhos_tools_semVar,
    semVar_isFile, semVar_whichResult, semVar_parsePath, busca_tier_semVar]

def sistemaC9 : Sistema :=
  { sistemaVazio with
    env := fun n => if n = "PORDOSOL_COMPILADOR_PATH" then some "   " else none,
    currentExe := some ["usr", "local", "bin", "pordosol"],
    whichResult := fun n => if n = "compilador" then some ["usr", "bin", "compilador"] else none }

/-- Witness for C9 at a concrete environment whose override variable holds
only blanks. -/
theorem C9_variavel_em_branco_witness :
    localizar_executavel sistemaC9 "compilador" "PORDOSOL_COMPILADOR_PATH" [] =
      localizar_executavel (semVar sistemaC9 "PORDOSOL_COMPILADOR_PATH")
        "compilador" "PORDOSOL_COMPILADOR_PATH" [] :=
  C9_variavel_em_branco sistemaC9 "compilador" "PORDOSOL_COMPILADOR_PATH" [] "   "
    (by decide) (by decide)

/-- The bounded upward search of `localizar_raiz` (toolchain.rs lines 38-47):
test the current directory, then walk to the parent, at most `n` times. -/
def localizar_raiz_loop (sys : Sistema) : Caminho → Nat → Option Caminho
  | _, 0 => none
  | p, Nat.succ k =>
    if sys.isDir (p ++ ["src"]) then some p
    else
      match parent p with
      | some pai => localizar_raiz_loop sys pai k
      | none => none

/-- `localizar_raiz` (toolchain.rs lines 30-49): absolutize the input, step
to the parent when the input is a file, search upward through at most 5
levels for a directory containing `src`, and fall back to the absolutized
input when nothing is found. -/
def localizar_raiz (sys : Sistema) (caminho : Caminho) : Caminho :=
  let p0 := sys.absolutize caminho
  let p1 :=
    if sys.isFile p0 then
      match parent p0 with
      | some pai => pai
      | none => p0
    else p0
  match localizar_raiz_loop sys p1 5 with
  | some r => r
  | none => sys.absolutize caminho

/-- The window of ancestors inspected by the upward search: the path itself
followed by up to `n - 1` of its ancestors. -/
def janela (p : Caminho) : Nat → List Caminho
  | 0 => []
  | Nat.succ k =>
    p ::
      (match parent p with
       | some q => janela q k
       | none => [])

/-- The directory at which the upward search of `localizar_raiz` starts:
the absolutized input, or its parent when the input is a regular file. -/
def inicio_busca (sys : Sistema) (caminho : Caminho) : Caminho :=
  let p0 := sys.absolutize caminho
  if sys.isFile p0 then
    match parent p0 with
    | some pai => pai
    | none => p0
  else p0

theorem localizar_raiz_loop_eq_find (sys : Sistema) (n : Nat) (p : Caminho) :
    localizar_raiz_loop sys p n =
      (janela p n).find? (fun q => sys.isDir (q ++ ["src"])) := by
  induction n generalizing p with
  | zero => rfl
  | succ k ih =>
    simp only [localizar_raiz_loop, janela, List.find?_cons]
    cases h : sys.isDir (p ++ ["src"])
    · simp only
      cases hp : parent p
      · rfl
      · exact ih _
    · rfl

/-- Claim C5: `localizar_raiz` returns the first ancestor (within the window
of the starting directory and its next four ancestors) that contains a `src`
subdirectory, and degenerates to the absolutized input path when no ancestor
in the window does.  Hence any two descendant paths whose windows select the
same first `src`-bearing ancestor are mapped to the same root. -/
theorem C5_raiz_primeiro_ancestral (sys : Sistema) (caminho : Caminho) :
    localizar_raiz sys caminho =
      (((janela (inicio_busca sys caminho) 5).find?
          (fun q => sys.isDir (q ++ ["src"]))).getD (sys.absolutize caminho)) := by
  show (match localizar_raiz_loop sys (inicio_busca sys caminho) 5 with
    | some r => r
    | none => sys.absolutize caminho) = _
  rw [localizar_raiz_loop_eq_find]
  cases (janela (inicio_busca sys caminho) 5).find? (fun q => sys.isDir (q ++ ["src"])) <;> rfl

/-- `Iterator::position`: index of the first element satisfying the
predicate. -/
def posicao {α : Type} (pred : α → Bool) : List α → Option Nat
  | [] => none
  | x :: resto => if pred x then some 0 else (posicao pred resto).map (fun n => n + 1)

/-- `Path::extension` on a single file name: the part after the last dot,
none when there is no dot or the name starts with its only dot. -/
def extensao_nome (nome : String) : Option String :=
  let rev := nome.toList.reverse
  match posicao (fun c => c == '.') rev with
  | none => none
  | some k =>
    if rev.drop (k + 1) = [] then none
    else some (String.mk ((rev.take k).reverse))

/-- `Path::extension`: the extension of the last path segment. -/
def extensao (p : Caminho) : Option String :=
  match p.getLast? with
  | some nome => extensao_nome nome
  | none => none

/-- `listar_prs` (toolchain.rs lines 51-66): enumerate `<raiz>/src`
recursively, keep regular files with the `pr` extension in discovery order,
and move the entry equal to `<raiz>/src/programa.pr` (when present) to the
front, as `position` + `remove` + `insert 0` do in the source. -/
def listar_prs (sys : Sistema) (raiz : Caminho) : List Caminho :=
  let src := raiz ++ ["src"]
  let arquivos := (sys.walk src).filter
    (fun p => sys.isFile p && extensao p == some "pr")
  let preferido := src ++ ["programa.pr"]
  match posicao (fun p => p == preferido) arquivos with
  | some pos =>
    match arquivos[pos]? with
    | some pref => pref :: arquivos.eraseIdx pos
    | none => arquivos
  | none => arquivos

theorem posicao_de_membro (l : List Caminho) (a : Caminho) (h : a ∈ l) :
    ∃ j, posicao (fun p => p == a) l = some j ∧ l[j]? = some a ∧
      l.eraseIdx j = l.erase a := by
  induction l with
  | nil => cases h
  | cons b resto ih =>
    by_cases hb : b = a
    · subst hb
      refine ⟨0, ?_, by simp, ?_⟩
      · simp [posicao]
      · simp [List.erase_cons]
    · have hb2 : (b == a) = false := by
        simpa using hb
      have hmem : a ∈ resto := by
        rcases List.mem_cons.mp h with h1 | h2
        · exact absurd h1.symm hb
        · exact h2
      obtain ⟨j, hj1, hj2, hj3⟩ := ih hmem
      refine ⟨j + 1, ?_, ?_, ?_⟩
      · simp [posicao, hb2, hj1]
      · simpa using hj2
      · simp [List.eraseIdx_cons_succ, List.erase_cons, hb2, hj3]

def sistemaC6 : Sistema :=
  { sistemaVazio with
    walk := fun p =>
      if p == ["proj", "src"] then
        [["proj", "src", "a.pr"], ["proj", "src", "sub", "programa.pr"]]
      else [],
    isFile := fun p =>
      p == ["proj", "src", "a.pr"] || p == ["proj", "src", "sub", "programa.pr"] }

/-- Counterexample to claim C6 as stated: a discovered list containing a file
literally named `programa.pr` (but nested, at `src/sub/programa.pr`) is
returned unchanged, with that file not at index 0 — only the direct child
`src/programa.pr` is ever promoted. -/
theorem C6_contraexemplo :
    listar_prs sistemaC6 ["proj"] =
      [["proj", "src", "a.pr"], ["proj", "src", "sub", "programa.pr"]] ∧
    (["proj", "src", "sub", "programa.pr"] : Caminho).getLast? = some "programa.pr" ∧
    (listar_prs sistemaC6 ["proj"])[0]? = some ["proj", "src", "a.pr"] ∧
    (["proj", "src", "a.pr"] : Caminho) ≠ ["proj", "src", "sub", "programa.pr"] := by
  refine ⟨by rfl, by rfl, by rfl, by decide⟩

/-- Claim C6 as amended: when the discovered-and-filtered list contains the
entry-point file `<raiz>/src/programa.pr` (the direct child of the source
directory — a nested file named `programa.pr` is not promoted), `listar_prs`
returns exactly that file at index 0 followed by the remaining files in
their discovery order. -/
theorem C6_programa_primeiro (sys : Sistema) (raiz : Caminho)
    (h : raiz ++ ["src", "programa.pr"] ∈
      (sys.walk (raiz ++ ["src"])).filter
        (fun p => sys.isFile p && extensao p == some "pr")) :
    listar_prs sys raiz =
      (raiz ++ ["src", "programa.pr"]) ::
        ((sys.walk (raiz ++ ["src"])).filter
            (fun p => sys.isFile p && extensao p == some "pr")).erase
          (raiz ++ ["src", "programa.pr"]) := by
  obtain ⟨j, hj1, hj2, hj3⟩ := posicao_de_membro _ _ h
  simp only [listar_prs, List.append_assoc, List.cons_append, List.nil_append]
  simp only [hj1, hj2, hj3]

def sistemaC6b : Sistema :=
  { sistemaVazio with
    walk := fun p =>
      if p == ["proj", "src"] then
        [["proj", "src", "a.pr"], ["proj", "src", "programa.pr"], ["proj", "src", "b.pr"]]
      else [],
    isFile := fun p =>
      p == ["proj", "src", "a.pr"] || p == ["proj", "src", "programa.pr"] ||
        p == ["proj", "src", "b.pr"] }

/-- Witness for the amended C6: the entry point is moved to the front and
the other files keep their discovery order. -/
theorem C6_programa_primeiro_witness :
    listar_prs sistemaC6b ["proj"] =
      [["proj", "src", "programa.pr"], ["proj", "src", "a.pr"], ["proj", "src", "b.pr"]] :=
  (C6_programa_primeiro sistemaC6b ["proj"] (by decide)).trans (by decide)

/-- The first search of `extrair_versao` (toolchain.rs lines 259-264):
`texto.find("(v")` followed by taking the text after the opening
parenthesis.  Returns the suffix starting at the `v`. -/
def encontrar_paren : List Char → Option (List Char)
  | [] => none
  | c :: resto =>
    if c = '(' ∧ resto.head? = some 'v' then some resto
    else encontrar_paren resto

/-- A character the version scan keeps consuming: digits, dots, hyphens
(toolchain.rs line 277). -/
def eh_char_versao (c : Char) : Bool :=
  c.isDigit || c == '.' || c == '-'

/-- The fallback scan of `extrair_versao` (toolchain.rs lines 266-284):
the first `v`/`V` immediately followed by an ASCII digit starts the token,
which extends through digits, dots and hyphens. -/
def varrer_versao : List Char → Option String
  | [] => none
  | c :: resto =>
    match resto.head? with
    | none => none
    | some prox =>
      if (c = 'v' ∨ c = 'V') ∧ prox.isDigit then
        some (String.mk (c :: resto.takeWhile eh_char_versao))
      else varrer_versao resto

/-- `extrair_versao` (toolchain.rs lines 258-287).  The byte positions used
by the source fall on character boundaries because the needles `(v` and `)`
are ASCII, so the character-list model is exact. -/
def extrair_versao (texto : String) : Option String :=
  let cs := texto.toList
  match encontrar_paren cs with
  | some sub =>
    if sub.contains ')' then
      some (String.mk (sub.takeWhile (fun c => c != ')')))
    else varrer_versao cs
  | none => varrer_versao cs

/-- Modelled from the spec's words for the fallback scan: the index of the
first position whose character is `v`/`V` with an ASCII digit right after
it, expressed through `posicao` over the list of adjacent pairs. -/
def varrer_especificado (cs : List Char) : Option String :=
  match posicao (fun par => (par.1 == 'v' || par.1 == 'V') && par.2.isDigit)
      (cs.zip cs.tail) with
  | some i =>
    match cs.drop i with
    | c :: resto => some (String.mk (c :: resto.takeWhile eh_char_versao))
    | [] => none
  | none => none

/-- Modelled from the spec's words: first the parenthesized `(v...)` pattern
(the first occurrence of `(v`, with a closing parenthesis somewhere after
it), otherwise the first-`v`-then-digits scan. -/
def extrair_versao_especificado (texto : String) : Option String :=
  let cs := texto.toList
  match posicao (fun par => par.1 == '(' && par.2 == 'v') (cs.zip cs.tail) with
  | some i =>
    let sub := cs.drop (i + 1)
    if sub.contains ')' then
      some (String.mk (sub.takeWhile (fun c => c != ')')))
    else varrer_especificado cs
  | none => varrer_especificado cs

/-- `combinar_saidas`: the combined stdout/stderr text built by
`detectar_versao_binario` (toolchain.rs lines 88-94). -/
def combinar_saidas (saida erro : String) : String :=
  if erro = "" then saida
  else if saida = "" then erro
  else saida ++ "\n" ++ erro

/-- The flag loop of `detectar_versao_binario` (toolchain.rs lines 86-99):
try each version flag in turn, returning the first parseable token. -/
def detectar_loop (sys : Sistema) (caminho : Caminho) : List String → Option String
  | [] => none
  | flag :: resto =>
    match sys.executar caminho flag with
    | some saida =>
      match extrair_versao (combinar_saidas saida.1 saida.2) with
      | some v => some v
      | none => detectar_loop sys caminho resto
    | none => detectar_loop sys caminho resto

/-- `detectar_versao_binario` (toolchain.rs lines 81-102). -/
def detectar_versao_binario (sys : Sistema) (caminho : Caminho) : Option String :=
  if sys.isFile caminho then
    detectar_loop sys caminho ["--versao", "--version", "-V"]
  else none

theorem encontrar_paren_eq (cs : List Char) :
    encontrar_paren cs =
      (posicao (fun par => par.1 == '(' && par.2 == 'v') (cs.zip cs.tail)).map
        (fun i => cs.drop (i + 1)) := by
  induction cs with
  | nil => rfl
  | cons c resto ih =>
    cases resto with
    | nil => simp [encontrar_paren, posicao]
    | cons r t =>
      simp only [List.zip, List.tail_cons] at ih ⊢
      by_cases hc : c = '(' ∧ r = 'v'
      · obtain ⟨h1, h2⟩ := hc
        subst h1
        subst h2
        simp [encontrar_paren, posicao]
      · have hcond : ¬(c = '(' ∧ (r :: t).head? = some 'v') := by
          simpa using hc
        have hb : ((c == '(') && (r == 'v')) = false := by
          cases hbv : ((c == '(') && (r == 'v')) with
          | false => rfl
          | true =>
            exfalso
            apply hc
            simpa [Bool.and_eq_true, beq_iff_eq] using hbv
        rw [encontrar_paren, if_neg hcond, ih]
        simp only [List.zipWith_cons_cons, posicao, hb,
          Bool.false_eq_true, if_false, Option.map_map]
        cases hq : posicao (fun par => par.1 == '(' && par.2 == 'v')
            (List.zipWith Prod.mk (r :: t) t) <;>
          simp [hq, Function.comp, List.drop_succ_cons]

theorem varrer_versao_eq (cs : List Char) :
    varrer_versao cs = varrer_especificado cs := by
  induction cs with
  | nil => rfl
  | cons c resto ih =>
    cases resto with
    | nil => rfl
    | cons r t =>
      by_cases h : (c = 'v' ∨ c = 'V') ∧ r.isDigit = true
      · have hb : ((c == 'v' || c == 'V') && r.isDigit) = true := by
          obtain ⟨h1, h2⟩ := h
          rcases h1 with h1 | h1 <;> simp [h1, h2]
        simp [varrer_versao, varrer_especificado, posicao, hb, h]
      · have hb : ((c == 'v' || c == 'V') && r.isDigit) = false := by
          cases hbv : ((c == 'v' || c == 'V') && r.isDigit) with
          | false => rfl
          | true =>
            exfalso
            apply h
            simpa [Bool.and_eq_true, Bool.or_eq_true, beq_iff_eq] using hbv
        rw [varrer_versao]
        simp only [List.head?_cons]
        rw [if_neg h, ih]
        simp only [varrer_especificado, List.zip, List.tail_cons, List.zipWith_cons_cons,
          posicao, hb, Bool.false_eq_true, if_false]
        cases hq : posicao (fun par => (par.1 == 'v' || par.1 == 'V') && par.2.isDigit)
            (List.zipWith Prod.mk (r :: t) t) <;> simp [hq, List.drop_succ_cons]

/-- Claim C7: `extrair_versao` agrees with its specification — the token of
the first parenthesized `(v...)` pattern when one (with its closing
parenthesis) is present, otherwise the token starting at the first `v`/`V`
followed by an ASCII digit, extended through digits, dots and hyphens — and
`detectar_versao_binario` returns no version (never an error) when the
binary is not a regular file or when no flag's output yields a parseable
token. -/
theorem C7_extracao_e_sondagem :
    (∀ texto, extrair_versao texto = extrair_versao_especificado texto) ∧
    (∀ (sys : Sistema) (caminho : Caminho), sys.isFile caminho = false →
      detectar_versao_binario sys caminho = none) ∧
    (∀ (sys : Sistema) (caminho : Caminho),
      (∀ flag saida erro, sys.executar caminho flag = some (saida, erro) →
        extrair_versao (combinar_saidas saida erro) = none) →
      detectar_versao_binario sys caminho = none) := by
  refine ⟨?_, ?_, ?_⟩
  · intro texto
    simp only [extrair_versao, extrair_versao_especificado, encontrar_paren_eq,
      varrer_versao_eq]
    cases hq : posicao (fun par => par.1 == '(' && par.2 == 'v')
        (texto.toList.zip texto.toList.tail) <;> simp [hq]
  · intro sys caminho h
    simp [detectar_versao_binario, h]
  · intro sys caminho h
    have hloop : ∀ flags, detectar_loop sys caminho flags = none := by
      intro flags
      induction flags with
      | nil => rfl
      | cons f resto ih =>
        rw [detectar_loop]
        cases hf : sys.executar caminho f with
        | none => exact ih
        | some par =>
          have hz : extrair_versao (combinar_saidas par.1 par.2) = none :=
            h f par.1 par.2 (by rw [hf])
          simp [hz, ih]
    cases hfile : sys.isFile caminho <;> simp [detectar_versao_binario, hfile, hloop]

def sistemaC7 : Sistema :=
  { sistemaVazio with
    isFile := fun p => p == ["usr", "bin", "comp"],
    executar := fun _ _ => some ("sem numero de versao", "") }

/-- Witness for C7: the parenthesized pattern is extracted on a concrete
output, a non-file probe yields no version, and a binary whose outputs
carry no parseable token yields no version. -/
theorem C7_extracao_e_sondagem_witness :
    extrair_versao_especificado "pordosol (v1.2.3)" = some "v1.2.3" ∧
    detectar_versao_binario sistemaVazio ["usr", "bin", "comp"] = none ∧
    detectar_versao_binario sistemaC7 ["usr", "bin", "comp"] = none := by
  refine ⟨?_, ?_, ?_⟩
  · rw [← C7_extracao_e_sondagem.1]
    decide
  · exact C7_extracao_e_sondagem.2.1 sistemaVazio _ rfl
  · refine C7_extracao_e_sondagem.2.2 sistemaC7 _ ?_
    intro flag saida erro hf
    simp only [sistemaC7, Option.some.injEq, Prod.mk.injEq] at hf
    obtain ⟨rfl, rfl⟩ := hf
    decide

/-- Path display for interpolated messages (`Path::display`). -/
def exibir (p : Caminho) : String := "/" ++ String.intercalate "/" p

/-- The rebuild decision of `run_unificado` (src/src/executar.rs lines
93-104), with the source-file list and the artifact path as computed by the
caller: not a pure-bytecode invocation, no `--no-build`, and either forced,
or the artifact is missing, or some source is strictly newer than the
artifact or has an unreadable timestamp paired with the artifact's. -/
def precisa_compilar (sys : Sistema) (somente_pbc no_build force : Bool)
    (arquivos_fontes : List Caminho) (pbc : Caminho) : Bool :=
  (!somente_pbc) && (!no_build) &&
    (force || !(sys.existe pbc) ||
      (let pbc_modified := sys.mtime pbc
       arquivos_fontes.any (fun pr =>
         let pr_modified := sys.mtime pr
         match pbc_modified, pr_modified with
         | some pbc_time, some pr_time => decide (pbc_time < pr_time)
         | _, _ => true)))

/-- The externally visible steps of `run_unificado`. -/
inductive Evento where
  | compilacao
  | execucao
deriving DecidableEq, Repr

/-- The build-then-run tail of `run_unificado` (executar.rs lines 93-146):
compile when the decision says so (failing on compiler launch failure or
nonzero status), then require the artifact to exist under `--no-build`,
then run the interpreter.  The returned list records which subprocesses ran,
in order. -/
def run_nucleo (sys : Sistema) (somente_pbc force no_build : Bool)
    (arquivos_fontes : List Caminho) (pbc : Caminho)
    (compilador interpretador : Caminho) : Except String (List Evento) :=
  let depois : List Evento → Except String (List Evento) := fun eventos =>
    if no_build && !(sys.existe pbc) then
      Except.error ("Bytecode nao encontrado em " ++ exibir pbc ++
        ". Rode `pordosol build` ou remova --no-build.")
    else
      match sys.statusProcesso interpretador [pbc] with
      | none => Except.error "Falha ao executar o interpretador"
      | some false => Except.error "Execucao falhou (status)"
      | some true => Except.ok (eventos ++ [Evento.execucao])
  if precisa_compilar sys somente_pbc no_build force arquivos_fontes pbc then
    match sys.statusProcesso compilador arquivos_fontes with
    | none => Except.error "Falha ao executar o compilador"
    | some false => Except.error "Compilacao falhou (status)"
    | some true => depois [Evento.compilacao]
  else depois []

theorem comparacao_mtime (a b : Option Nat) :
    (match a, b with
     | some ta, some tb => decide (ta < tb)
     | _, _ => true) = true ↔
    (a = none ∨ b = none ∨ ∃ ta tb, a = some ta ∧ b = some tb ∧ ta < tb) := by
  rcases a with _ | ta <;> rcases b with _ | tb <;> simp

def sistemaC3 : Sistema :=
  { sistemaVazio with existe := fun p => p == ["proj", "build", "programa.pbc"] }

/-- Counterexample to claim C3 as stated: with an empty source list, an
artifact that exists but whose modification-time lookup fails, and no force
flag, the claim's disjunct "a modification-time lookup fails for the
artifact" holds, yet the code does not rebuild (the per-source comparison
loop is vacuous). -/
theorem C3_contraexemplo :
    precisa_compilar sistemaC3 false false false [] ["proj", "build", "programa.pbc"] =
      false ∧
    sistemaC3.existe ["proj", "build", "programa.pbc"] = true ∧
    sistemaC3.mtime ["proj", "build", "programa.pbc"] = none := by
  refine ⟨rfl, by decide, rfl⟩

/-- Claim C3 as amended: with the skip-build flag unset (and a non-bytecode
invocation), the rebuild decision is true iff the force flag is set, or the
artifact does not exist, or there is some source file for which the
artifact's or the source's modification-time lookup fails or the source is
strictly newer; in particular no rebuild occurs when the artifact exists
with a readable modification time at least every source's readable one. -/
theorem C3_decisao (sys : Sistema) (force : Bool) (fontes : List Caminho)
    (pbc : Caminho) :
    (precisa_compilar sys false false force fontes pbc = true ↔
      (force = true ∨ sys.existe pbc = false ∨
        ∃ pr ∈ fontes, sys.mtime pbc = none ∨ sys.mtime pr = none ∨
          ∃ tp tf, sys.mtime pbc = some tp ∧ sys.mtime pr = some tf ∧ tp < tf)) ∧
    (force = false → sys.existe pbc = true →
      ∀ tp, sys.mtime pbc = some tp →
        (∀ pr ∈ fontes, ∃ tf, sys.mtime pr = some tf ∧ tf ≤ tp) →
        precisa_compilar sys false false force fontes pbc = false) := by
  have h1 : precisa_compilar sys false false force fontes pbc = true ↔
      (force = true ∨ sys.existe pbc = false ∨
        ∃ pr ∈ fontes, sys.mtime pbc = none ∨ sys.mtime pr = none ∨
          ∃ tp tf, sys.mtime pbc = some tp ∧ sys.mtime pr = some tf ∧ tp < tf) := by
    simp only [precisa_compilar, Bool.not_false, Bool.true_and, Bool.or_eq_true,
      Bool.not_eq_true', List.any_eq_true, comparacao_mtime, or_assoc]
  refine ⟨h1, ?_⟩
  intro hf he tp hm hall
  cases hpc : precisa_compilar sys false false force fontes pbc with
  | false => rfl
  | true =>
    exfalso
    rcases h1.mp hpc with hforce | hexiste | ⟨pr, hpr, hcase⟩
    · rw [hf] at hforce
      exact Bool.noConfusion hforce
    · rw [he] at hexiste
      exact Bool.noConfusion hexiste
    · rcases hcase with hnone | hnone2 | ⟨ta, tb, ha, hb, hlt⟩
      · rw [hm] at hnone
        exact Option.noConfusion hnone
      · obtain ⟨tf, htf, _⟩ := hall pr hpr
        rw [htf] at hnone2
        exact Option.noConfusion hnone2
      · rw [hm] at ha
        injection ha with ha2
        subst ha2
        obtain ⟨tf, htf, hle⟩ := hall pr hpr
        rw [htf] at hb
        injection hb with hb2
        subst hb2
        exact absurd hlt (not_lt.mpr hle)

def sistemaC3b : Sistema :=
  { sistemaVazio with
    existe := fun p => p == ["proj", "build", "programa.pbc"],
    mtime := fun p =>
      if p == ["proj", "build", "programa.pbc"] then some 10
      else if p == ["proj", "src", "programa.pr"] then some 5
      else none }

/-- Witness for the amended C3: artifact readable and newer than the only
source, not forced, so no rebuild. -/
theorem C3_decisao_witness :
    precisa_compilar sistemaC3b false false false [["proj", "src", "programa.pr"]]
      ["proj", "build", "programa.pbc"] = false :=
  (C3_decisao sistemaC3b false [["proj", "src", "programa.pr"]]
      ["proj", "build", "programa.pbc"]).2 rfl (by decide) 10 (by decide)
    (by
      intro pr hpr
      have hpr2 : pr = ["proj", "src", "programa.pr"] := by simpa using hpr
      subst hpr2
      exact ⟨5, by decide, by decide⟩)

/-- Claim C4: with the skip-build flag set the rebuild decision is false
regardless of force, artifact existence and timestamps; a successful run
then never contains a compile step; and a missing artifact makes the
operation fail with the configuration error instead of reaching the
interpreter. -/
theorem C4_no_build (sys : Sistema) (somente_pbc force : Bool)
    (fontes : List Caminho) (pbc compilador interpretador : Caminho) :
    precisa_compilar sys somente_pbc true force fontes pbc = false ∧
    (sys.existe pbc = false →
      run_nucleo sys somente_pbc force true fontes pbc compilador interpretador =
        Except.error ("Bytecode nao encontrado em " ++ exibir pbc ++
          ". Rode `pordosol build` ou remova --no-build.")) ∧
    (∀ eventos,
      run_nucleo sys somente_pbc force true fontes pbc compilador interpretador =
        Except.ok eventos → Evento.compilacao ∉ eventos) := by
  have hpc : precisa_compilar sys somente_pbc true force fontes pbc = false := by
    simp [precisa_compilar]
  refine ⟨hpc, ?_, ?_⟩
  · intro he
    simp [run_nucleo, hpc, he]
  · intro eventos hok
    cases he : sys.existe pbc with
    | false => simp [run_nucleo, hpc, he] at hok
    | true =>
      rcases hs : sys.statusProcesso interpretador [pbc] with _ | b
      · simp [run_nucleo, hpc, he, hs] at hok
      · cases b
        · simp [run_nucleo, hpc, he, hs] at hok
        · simp [run_nucleo, hpc, he, hs] at hok
          subst hok
          decide

/-- Witness for C4 at a concrete environment with the force flag set, a
missing artifact and `--no-build`: the configuration error is produced. -/
theorem C4_no_build_witness :
    run_nucleo sistemaVazio false true true [] ["proj", "build", "programa.pbc"]
      ["opt", "comp"] ["opt", "interp"] =
      Except.error ("Bytecode nao encontrado em " ++
        exibir ["proj", "build", "programa.pbc"] ++
        ". Rode `pordosol build` ou remova --no-build.") :=
  (C4_no_build sistemaVazio false true [] ["proj", "build", "programa.pbc"]
    ["opt", "comp"] ["opt", "interp"]).2.1 rfl

/-- A JSON value as handled through `serde_json::Value`; objects are
association lists with unique keys, as produced by parsing. -/
inductive Json where
  | null
  | bool (b : Bool)
  | num (n : Int)
  | str (s : String)
  | arr (itens : List Json)
  | obj (campos : List (String × Json))

/-- `Value::get` on an object key. -/
def jsonGet (j : Json) (chave : String) : Option Json :=
  match j with
  | Json.obj campos => (campos.find? (fun kv => kv.1 == chave)).map (fun kv => kv.2)
  | _ => none

/-- `Value::as_str`. -/
def asStr : Json → Option String
  | Json.str s => some s
  | _ => none

/-- `json.get_mut("dependencias").and_then(as_object_mut)` of `dep_cmd`
(src/src/main.rs lines 641-644). -/
def obterDependencias (j : Json) : Option (List (String × Json)) :=
  match jsonGet j "dependencias" with
  | some (Json.obj deps) => some deps
  | _ => none

/-- Writing the mutated dependency object back into the manifest (the
in-place mutation through `get_mut` in the source). -/
def definirDependencias (j : Json) (novos : List (String × Json)) : Json :=
  match j with
  | Json.obj campos =>
    Json.obj (campos.map (fun kv =>
      if kv.1 == "dependencias" then (kv.1, Json.obj novos) else kv))
  | outro => outro

/-- `Map::insert`: replace the value of an existing key or add the entry. -/
def inserirDep : List (String × Json) → String → Json → List (String × Json)
  | [], chave, valor => [(chave, valor)]
  | kv :: resto, chave, valor =>
    if kv.1 == chave then (chave, valor) :: resto
    else kv :: inserirDep resto chave valor

/-- `Map::remove` on a unique-key association list. -/
def removerDep (deps : List (String × Json)) (chave : String) :
    List (String × Json) :=
  deps.filter (fun kv => !(kv.1 == chave))

/-- `to_ascii_lowercase`. -/
def paraMinusculas (s : String) : String :=
  String.mk (s.toList.map (fun c =>
    if 'A' ≤ c ∧ c ≤ 'Z' then Char.ofNat (c.toNat + 32) else c))

/-- One display line of the `list` action (main.rs lines 672-694); the
rendering of JSON values other than strings and `path` objects is
abbreviated relative to serde's `Display`, which no claim depends on. -/
def linhaDep (chave : String) (valor : Json) : String :=
  match valor with
  | Json.str s => "  - " ++ chave ++ " = " ++ s
  | Json.obj campos =>
    match campos.find? (fun kv => kv.1 == "path") with
    | some kv =>
      match kv.2 with
      | Json.str p => "  - " ++ chave ++ " (path = " ++ p ++ ")"
      | _ => "  - " ++ chave ++ " (path = ?)"
    | none => "  - " ++ chave ++ " (obj)"
  | _ => "  - " ++ chave

/-- `dep_cmd` (main.rs lines 626-697) from the parsed manifest onward: the
result is the printed messages together with the manifest written back to
disk, when one is written.  The earlier steps (root discovery, file read,
parse) are the caller's; a missing or invalid `dependencias` field is the
configuration error of lines 641-644. -/
def dep_cmd (json : Json) (acao : String) (nome : Option String)
    (versao : Option String) (caminho_local : Option String) :
    Except String (List String × Option Json) :=
  match obterDependencias json with
  | none => Except.error "Campo \x27dependencias\x27 ausente ou invalido"
  | some deps =>
    if paraMinusculas acao = "add" then
      match nome with
      | none => Except.error "Informe o nome da dependencia"
      | some nome2 =>
        let aviso :=
          if (deps.find? (fun kv => kv.1 == nome2)).isSome then
            ["Dependencia \x27" ++ nome2 ++ "\x27 ja existe. Atualizando..."]
          else []
        let valor :=
          match caminho_local with
          | some c => Json.obj [("path", Json.str c)]
          | none => Json.str (versao.getD "*")
        Except.ok
          (aviso ++ ["Dependencia \x27" ++ nome2 ++ "\x27 adicionada/atualizada."],
            some (definirDependencias json (inserirDep deps nome2 valor)))
    else if paraMinusculas acao = "remove" ∨ paraMinusculas acao = "rm" then
      match nome with
      | none => Except.error "Informe o nome da dependencia"
      | some nome2 =>
        if (deps.find? (fun kv => kv.1 == nome2)).isSome then
          Except.ok (["Dependencia \x27" ++ nome2 ++ "\x27 removida."],
            some (definirDependencias json (removerDep deps nome2)))
        else
          Except.ok (["Dependencia \x27" ++ nome2 ++ "\x27 nao encontrada."], none)
    else if paraMinusculas acao = "list" ∨ paraMinusculas acao = "ls" ∨
        paraMinusculas acao = "listar" then
      if deps.isEmpty then Except.ok (["Nenhuma dependencia declarada."], none)
      else
        Except.ok ("Dependencias:" :: deps.map (fun kv => linhaDep kv.1 kv.2), none)
    else
      Except.error ("Acao desconhecida: " ++ paraMinusculas acao ++ " (use add|remove|list)")

/-- Claim C8: removing a dependency that is not in the manifest's dependency
map reports "not found" and succeeds (no error exit), writing nothing back,
for every manifest with a valid dependency field. -/
theorem C8_remover_inexistente (json : Json) (deps : List (String × Json))
    (nome : String) (versao caminho_local : Option String)
    (h1 : obterDependencias json = some deps)
    (h2 : deps.find? (fun kv => kv.1 == nome) = none) :
    dep_cmd json "remove" (some nome) versao caminho_local =
      Except.ok (["Dependencia \x27" ++ nome ++ "\x27 nao encontrada."], none) := by
  have hlower : paraMinusculas "remove" = "remove" := by decide
  simp [dep_cmd, h1, hlower, h2]

def manifestoC8 : Json :=
  Json.obj [("nome", Json.str "app"),
    ("dependencias", Json.obj [("foo", Json.str "1.0")])]

/-- Witness for C8: removing `bar` from a manifest that only declares `foo`. -/
theorem C8_remover_inexistente_witness :
    dep_cmd manifestoC8 "remove" (some "bar") none none =
      Except.ok (["Dependencia \x27bar\x27 nao encontrada."], none) :=
  C8_remover_inexistente manifestoC8 [("foo", Json.str "1.0")] "bar" none none rfl rfl

/-- The target-selection step of `compilar_cmd` (src/src/construir.rs lines
17-26, duplicated in main.rs): when the requested target is exactly
`bytecode` and a manifest was loaded, the manifest's
`configuracao.target_padrao` string replaces it, falling back to the request
when absent or not a string; any other request is used as given. -/
def target_final (config : Option Json) (target : String) : String :=
  if target == "bytecode" && config.isSome then
    (((config.bind (fun c => jsonGet c "configuracao")).bind
        (fun c => jsonGet c "target_padrao")).bind asStr).getD target
  else target

/-- Claim C10: with requested target exactly `bytecode` and a manifest whose
`configuracao.target_padrao` is a string, that string is silently
substituted; with any other requested target the manifest is ignored. -/
theorem C10_alvo_padrao :
    (∀ (j : Json) (s : String),
      (jsonGet j "configuracao").bind (fun c => jsonGet c "target_padrao") =
          some (Json.str s) →
      target_final (some j) "bytecode" = s) ∧
    (∀ (config : Option Json) (target : String), target ≠ "bytecode" →
      target_final config target = target) := by
  constructor
  · intro j s h
    simp [target_final, h, asStr]
  · intro config target h
    have hb : (target == "bytecode") = false := by
      simpa using h
    simp [target_final, hb]

def manifestoC10 : Json :=
  Json.obj [("configuracao", Json.obj [("target_padrao", Json.str "llvm-ir")])]

/-- Witness for C10: the manifest's default target replaces `bytecode`, and
an explicit `console` request ignores the manifest. -/
theorem C10_alvo_padrao_witness :
    target_final (some manifestoC10) "bytecode" = "llvm-ir" ∧
    target_final (some manifestoC10) "console" = "console" :=
  ⟨C10_alvo_padrao.1 manifestoC10 "llvm-ir" rfl,
   C10_alvo_padrao.2 (some manifestoC10) "console" (by decide)⟩
